import Mathlib

/-!
# Verification of the tutoring-marketplace request handlers

A shallow embedding, in Lean 4, of the server-side request handlers of the
CSC648 term project: the search handler (query construction and in-memory
pagination), the search-category loader, the tutor-post creator, and the
message-dashboard loader.  Each JavaScript function is translated into a
pure Lean function; the database is passed in as an explicit outcome
(`Except` of an error or a row list, or a function from query text to such
an outcome), and JavaScript `undefined` is rendered as `Option.none`.
-/

set_option autoImplicit false

namespace TermProject

/-! ## JavaScript value helpers

Request query parameters are `Option String`: `none` models a parameter that
is absent from the query string (JavaScript `undefined`), `some s` a present
string value. -/

/-- JavaScript template-literal coercion of a possibly-undefined string:
interpolating `undefined` into a template string produces the text
`"undefined"`. -/
def jsToString : Option String → String
  | none => "undefined"
  | some s => s

/-- JavaScript strict equality test `v === ''` on a possibly-undefined
string value: true exactly when the value is the empty string (an absent
value is *not* strictly equal to `''`). -/
def jsIsEmptyStr (v : Option String) : Bool :=
  v == some ""

/-- JavaScript `Array.prototype.slice(a, b)` for non-negative `Int` indices
`a` and `b` (the only way the search handler calls it when the page index is
non-negative): the elements at offsets `[a, b)`, clamped to the array. -/
def jsSlice {α : Type} (l : List α) (a b : Int) : List α :=
  (l.drop a.toNat).take (b.toNat - a.toNat)

/-! ## Search handler: page-number extraction (search, lines 84-91)

`let pageNum = 0; if(request.query.page) pageNum = request.query.page - 1`.
The page parameter is modelled by its numeric value when present and truthy
(`none` covers both an absent parameter and a falsy one such as `''`). -/

/-- The 0-based page index computed by `search`: 0 when the page parameter
is absent, otherwise the parameter value minus one. -/
def computePageNum : Option Int → Int
  | none => 0
  | some page => page - 1

/-! ## Search handler: query construction (search, lines 93-162)

The JavaScript builds one of four SQL strings by an if/else-if chain on
`searchTerm !== ''` and `category !== ''`.  Each branch's string is
transliterated separately, exactly as written (including the missing space
after `AND` in the filtered variants). -/

/-- The shared SELECT/JOIN prelude, lines 94-107 (identical in all four
query variants of the source). -/
def searchSelectJoins : String :=
  "SELECT users.first_name,\n" ++
  "       users.last_name,\n" ++
  "       tutor_post.user_id,\n" ++
  "       tutor_post.post_thumbnail AS thumbnail,\n" ++
  "       tutor_post.admin_approved,\n" ++
  "       tutor_post.tutoring_course_id,\n" ++
  "       course.number AS courseNumber,\n" ++
  "       course.title AS courseTitle,\n" ++
  "       major.major_long_name,\n" ++
  "       major.major_short_name\n" ++
  "FROM tutor_post\n" ++
  "JOIN users ON tutor_post.user_id = users.user_id\n" ++
  "JOIN course ON tutor_post.tutoring_course_id = course.course_id\n" ++
  "JOIN major ON course.major = major.major_id\n"

/-- The default (unfiltered) query, lines 94-108: the only WHERE condition
is the admin-approval flag. -/
def qDefault : String :=
  searchSelectJoins ++
  "WHERE tutor_post.admin_approved = 1"

/-- The query of the first branch (term and category both `!== ''`),
lines 110-125: approval flag plus a LIKE filter on first or last name; the
term is spliced into the string by template interpolation. -/
def qTermAndCategory (searchTerm : Option String) : String :=
  searchSelectJoins ++
  "WHERE tutor_post.admin_approved = 1 AND" ++
  "(users.first_name LIKE '%" ++ jsToString searchTerm ++
  "%' OR users.last_name LIKE '%" ++ jsToString searchTerm ++ "%')"

/-- The query of the second branch (term `!== ''`, category `=== ''`),
lines 128-143: written out in the source as a separate literal, with
exactly the same text as the first branch. -/
def qTermOnly (searchTerm : Option String) : String :=
  searchSelectJoins ++
  "WHERE tutor_post.admin_approved = 1 AND" ++
  "(users.first_name LIKE '%" ++ jsToString searchTerm ++
  "%' OR users.last_name LIKE '%" ++ jsToString searchTerm ++ "%')"

/-- The query of the third branch (term `=== ''`, category `!== ''`),
lines 146-161: approval flag plus an exact match on the major short name. -/
def qCategoryOnly (category : Option String) : String :=
  searchSelectJoins ++
  "WHERE tutor_post.admin_approved = 1 AND" ++
  "major.major_short_name = '" ++ jsToString category ++ "'"

/-- The if/else-if chain of `search`, lines 93-162, selecting one of the
four query strings from the (possibly undefined) term and category. -/
def buildSearchQuery (searchTerm category : Option String) : String :=
  if !jsIsEmptyStr searchTerm && !jsIsEmptyStr category then
    qTermAndCategory searchTerm
  else if !jsIsEmptyStr searchTerm && jsIsEmptyStr category then
    qTermOnly searchTerm
  else if jsIsEmptyStr searchTerm && !jsIsEmptyStr category then
    qCategoryOnly category
  else
    qDefault

/-! ## Search handler: result rows, thumbnails and the success branch
(search, lines 181-218) -/

/-- One row of a search query result: the columns selected by every query
variant.  The thumbnail is a nullable blob, modelled as an optional byte
list. -/
structure SearchRow where
  first_name : String
  last_name : String
  user_id : Int
  thumbnail : Option (List Nat)
  admin_approved : Int
  tutoring_course_id : Int
  courseNumber : Int
  courseTitle : String
  major_long_name : String
  major_short_name : String
  deriving Repr, DecidableEq

/-- The base64 alphabet. -/
def base64Alphabet : List Char :=
  "ABCDEFGHIJKLMNOPQRSTUVWXYZabcdefghijklmnopqrstuvwxyz0123456789+/".toList

/-- The base64 digit for a 6-bit value. -/
def base64Digit (n : Nat) : Char :=
  base64Alphabet.getD n 'A'

/-- Base64 encoding of a byte list, modelling `buffer.toString('base64')`. -/
def base64Encode : List Nat → String
  | [] => ""
  | [a] =>
      String.mk [base64Digit (a / 4 % 64), base64Digit (a % 4 * 16)] ++ "=="
  | [a, b] =>
      String.mk [base64Digit (a / 4 % 64), base64Digit (a % 4 * 16 + b / 16),
                 base64Digit (b % 16 * 4)] ++ "="
  | a :: b :: c :: rest =>
      String.mk [base64Digit (a / 4 % 64), base64Digit (a % 4 * 16 + b / 16),
                 base64Digit (b % 16 * 4 + c / 64), base64Digit (c % 64)] ++
      base64Encode rest

/-- The thumbnail-extraction loop of `search`, lines 185-194: walk the
result rows in order and, for each row whose thumbnail is not null, push the
base64 encoding of the blob. -/
def extractThumbnails (result : List SearchRow) : List String :=
  result.filterMap (fun row => row.thumbnail.map base64Encode)

/-- The request fields written by the success branch of the `search`
database callback, lines 196-217. -/
structure SearchState where
  searchTerm : Option String
  category : Option String
  searchResult : List SearchRow
  thumbnails : List String
  pageNum : Int
  totalNum : Nat
  upperBound : Int
  lowerBound : Int
  deriving Repr, DecidableEq

/-- The success branch of the `search` database callback, lines 181-218:
slice the result rows and the extracted thumbnails to the 5-item window at
`pageNum * 5`, record the total count, and compute the pagination bounds
(`pageNum*5 + 5`, clamped down to the total when it overshoots, and
`pageNum*5 + 1`). -/
def searchSuccess (searchTerm category : Option String) (pageNum : Int)
    (result : List SearchRow) : SearchState :=
  let thumbnails := extractThumbnails result
  let searchResult := jsSlice result (pageNum * 5) (pageNum * 5 + 5)
  let thumbs := jsSlice thumbnails (pageNum * 5) (pageNum * 5 + 5)
  let totalNum := result.length
  let upperBound : Int := pageNum * 5 + 5
  let upperBound : Int :=
    if pageNum * 5 + 5 > (result.length : Int) then (result.length : Int)
    else upperBound
  let lowerBound : Int := pageNum * 5 + 1
  { searchTerm := searchTerm
    category := category
    searchResult := searchResult
    thumbnails := thumbs
    pageNum := pageNum
    totalNum := totalNum
    upperBound := upperBound
    lowerBound := lowerBound }

/-! ## Spec-side window definition (for the refinement claims C1/C2)

The spec describes the returned window as "the elements of the full result
list at offsets `[5p, 5p+5)` clamped to `[0, n)`".  This definition follows
the spec's words, not the code: enumerate the offsets `5p, …, 5p+4` and keep
the elements of the list at those offsets that actually exist. -/

/-- The window the spec describes: elements of `l` at offsets
`[5*p, 5*p+5)`, clamped to the valid offsets of `l`. -/
def specWindow {α : Type} (l : List α) (p : Nat) : List α :=
  (List.range' (5 * p) 5).filterMap (fun i => l[i]?)

/-! ## Sample data used by the witness theorems -/

/-- A concrete search row with fields derived from an index; even-indexed
rows carry a thumbnail blob, odd-indexed rows a null thumbnail. -/
def sampleRow (i : Nat) : SearchRow :=
  { first_name := "First" ++ toString i
    last_name := "Last" ++ toString i
    user_id := i
    thumbnail := if i % 2 == 0 then some [i, i + 1] else none
    admin_approved := 1
    tutoring_course_id := i
    courseNumber := 100 + i
    courseTitle := "Course" ++ toString i
    major_long_name := "Computer Science"
    major_short_name := "CS" }

/-- Seven concrete search rows. -/
def sampleRows : List SearchRow := (List.range 7).map sampleRow

/-- Twelve concrete search rows (the spec's `n = 12` pagination example). -/
def rows12 : List SearchRow := (List.range 12).map sampleRow

/-! ## Category loader (getSearchCategories, search model lines 29-67) -/

/-- One row of the `major` table. -/
structure MajorRow where
  major_short_name : String
  major_long_name : String
  deriving Repr, DecidableEq

/-- The observable outcome of running `getSearchCategories` against a
database outcome: the two request lists, the response-local lists (set only
on success), and how many times the continuation was invoked. -/
structure CategoriesState where
  majors_short_name : List String
  majors_long_name : List String
  localsShortName : Option (List String)
  localsLongName : Option (List String)
  callbackCalls : Nat
  deriving Repr, DecidableEq

/-- The database callback of `getSearchCategories`, lines 35-66: first set
both request lists to empty defaults; on a query error only log; otherwise
loop over the rows pushing short and long names, and publish both lists
into the response locals.  Either way, end by calling the continuation
(recorded as a callback count). -/
def getSearchCategories (outcome : Except String (List MajorRow)) :
    CategoriesState :=
  let shortNames : List String := []
  let longNames : List String := []
  match outcome with
  | .error _ =>
      { majors_short_name := shortNames
        majors_long_name := longNames
        localsShortName := none
        localsLongName := none
        callbackCalls := 1 }
  | .ok result =>
      let shortNames := result.foldl
        (fun acc item => acc ++ [item.major_short_name]) shortNames
      let longNames := result.foldl
        (fun acc item => acc ++ [item.major_long_name]) longNames
      { majors_short_name := shortNames
        majors_long_name := longNames
        localsShortName := some shortNames
        localsLongName := some longNames
        callbackCalls := 1 }

/-! ## Dashboard loader (dashboard.js, lines 16-70) -/

/-- One row of the dashboard message query: message columns joined with the
sender's name. -/
structure MessageRow where
  message_id : Int
  date_sent : String
  message_text : String
  to_user : Int
  from_user : Int
  is_unread : Bool
  from_user_first_name : String
  from_user_last_name : String
  deriving Repr, DecidableEq

/-- A display-ready message entry pushed by the dashboard loop. -/
structure MessageEntry where
  tutorName : String
  messageText : String
  dateTime : String
  status : String
  deriving Repr, DecidableEq

set_option linter.unusedVariables false in
/-- The query built by `loadDashboard`, lines 18-33: the session user id is
read and then immediately overwritten by the hard-coded placeholder id 2
(the TODO at line 19), which is what the query interpolates; the first
binding is therefore never used. -/
def dashboardQuery (sessionUserID : Int) : String :=
  let userID := sessionUserID
  let userID := (2 : Int)
  "SELECT messages.message_id,\n" ++
  "       messages.date_sent,\n" ++
  "       messages.message_text,\n" ++
  "       messages.to_user,\n" ++
  "       messages.from_user,\n" ++
  "       messages.is_unread,\n" ++
  "       users.first_name AS from_user_first_name,\n" ++
  "       users.last_name AS from_user_last_name\n" ++
  "FROM messages\n" ++
  "JOIN users ON users.user_id = messages.from_user\n" ++
  "WHERE messages.to_user = " ++ toString userID ++ "\n" ++
  "ORDER BY messages.date_sent DESC"

/-- One iteration of the dashboard message loop, lines 50-60, at row index
`i`: the status is computed from `result[1]['is_unread']` — the row at the
*fixed* index 1, not the current row `i`.  When the indexed row does not
exist the JavaScript property access throws (`result[1]` is `undefined`),
modelled as `none`. -/
def buildMessageEntry (result : List MessageRow) (i : Nat) :
    Option MessageEntry := do
  let row1 ← result[1]?
  let status := if row1.is_unread then "Unread" else "Read"
  let row ← result[i]?
  pure { tutorName := row.from_user_first_name ++ " " ++ row.from_user_last_name
         messageText := row.message_text
         dateTime := row.date_sent
         status := status }

/-- The entry pushed for current row `row` when the fixed-index row is
`row1` (lines 55-60 of dashboard.js). -/
def mkMessageEntry (row1 row : MessageRow) : MessageEntry :=
  { tutorName := row.from_user_first_name ++ " " ++ row.from_user_last_name
    messageText := row.message_text
    dateTime := row.date_sent
    status := if row1.is_unread then "Unread" else "Read" }

/-- The dashboard message loop, lines 48-62, over the row indices it visits
(`i = 0, …, result.length - 1` in order); a `none` anywhere models the loop
throwing, in which case nothing is rendered. -/
def buildMessagesFrom (result : List MessageRow) : List Nat → Option (List MessageEntry)
  | [] => some []
  | i :: rest => do
    let entry ← buildMessageEntry result i
    let entries ← buildMessagesFrom result rest
    pure (entry :: entries)

/-- The message list built by the dashboard database callback on success:
loop over every row index of the result set. -/
def buildMessages (result : List MessageRow) : Option (List MessageEntry) :=
  buildMessagesFrom result (List.range result.length)

/-- `loadDashboard`, lines 16-70, with the database passed explicitly as a
map from query text to outcome: build the query (hard-coded to user 2),
run it, render the empty list on a database error, and otherwise render the
looped-over entries (`none` = the loop threw, nothing rendered). -/
def loadDashboard (sessionUserID : Int)
    (db : String → Except String (List MessageRow)) :
    Option (List MessageEntry) :=
  match db (dashboardQuery sessionUserID) with
  | .error _ => some []
  | .ok result => buildMessages result

/-- A concrete message row derived from an index, unread exactly on even
indices. -/
def sampleMessageRow (i : Nat) : MessageRow :=
  { message_id := i
    date_sent := "2021-12-0" ++ toString i
    message_text := "message " ++ toString i
    to_user := 2
    from_user := 10 + i
    is_unread := i % 2 == 0
    from_user_first_name := "Sender" ++ toString i
    from_user_last_name := "Surname" ++ toString i }

/-! ## Tutor-post creator (createTutorPost, lines 18-75) -/

/-- The observable outcome of `createTutorPost`: the `postCreated` request
field (`none` = never assigned, i.e. JavaScript `undefined`), whether any
INSERT into `tutor_post` was issued, the error re-raised from the
asynchronous database callbacks (if any), and how many times the final
callback ran. -/
structure TutorPostResult where
  postCreated : Option Bool
  insertPerformed : Bool
  thrown : Option String
  callbackCalls : Nat
  deriving Repr, DecidableEq

/-- One row of the major-id lookup. -/
structure MajorIdRow where
  major_id : Int
  deriving Repr, DecidableEq

/-- One row of the course-id lookup. -/
structure CourseIdRow where
  course_id : Int
  deriving Repr, DecidableEq

/-- `createTutorPost`, lines 18-75, over the three external outcomes it
depends on: the image resize (`sharp(...).toFile`), the major-id query and
the course-id query.  If the resize fails, the `.catch` only logs and
`postCreated` is never assigned.  On resize success `postCreated` is set to
`false`; a database error in either lookup is re-thrown from the callback
(lines 40 and 53); an empty major-id result crashes the `result[0]` access
(the guard at line 42 tests `result.length >= 0`, which is always true);
and the INSERT of lines 59-66 is commented out, so no insert ever runs and
`postCreated` is never set to `true`.  The final callback at line 74 runs
synchronously in every case. -/
def createTutorPost (sharpOutcome : Except String Unit)
    (majorOutcome : Except String (List MajorIdRow))
    (courseOutcome : Except String (List CourseIdRow)) : TutorPostResult :=
  let asyncPart : Option Bool × Bool × Option String :=
    match sharpOutcome with
    | .error _ => (none, false, none)
    | .ok _ =>
      match majorOutcome with
      | .error e => (some false, false, some e)
      | .ok result =>
        if result.length ≥ 0 then
          match result[0]? with
          | none => (some false, false, some "TypeError")
          | some _ =>
            match courseOutcome with
            | .error e => (some false, false, some e)
            | .ok cresult =>
              if cresult.length > 0 then
                (some false, false, none)
              else
                (some false, false, none)
        else
          (some false, false, none)
  { postCreated := asyncPart.1
    insertPerformed := asyncPart.2.1
    thrown := asyncPart.2.2
    callbackCalls := 1 }

/-! ## Lemmas: the drop/take slice equals the spec's offset window -/

/-- Offsets at or beyond the length of the list contribute nothing to the
offset window. -/
theorem filterMap_getElem_range_past_end {α : Type} (l : List α) :
    ∀ (k a : Nat), l.length ≤ a →
      (List.range' a k).filterMap (fun i => l[i]?) = [] := by
  intro k
  induction k with
  | zero => intro a _; rfl
  | succ k ih =>
    intro a ha
    rw [List.range'_succ, List.filterMap_cons, List.getElem?_eq_none ha]
    exact ih (a + 1) (Nat.le_succ_of_le ha)

/-- The `k`-element slice of `l` starting at offset `a` (drop then take, as
`jsSlice` computes it) is exactly the elements of `l` at the offsets
`[a, a + k)` that exist. -/
theorem drop_take_eq_offset_window {α : Type} (l : List α) :
    ∀ (k a : Nat), (l.drop a).take k = (List.range' a k).filterMap (fun i => l[i]?) := by
  intro k
  induction k with
  | zero => intro a; simp
  | succ k ih =>
    intro a
    by_cases h : a < l.length
    · rw [List.drop_eq_getElem_cons h, List.take_succ_cons,
          List.range'_succ, List.filterMap_cons, List.getElem?_eq_getElem h]
      exact congrArg (l[a] :: ·) (ih (a + 1))
    · have hle : l.length ≤ a := Nat.le_of_not_lt h
      rw [List.drop_eq_nil_of_le hle, List.take_nil,
          filterMap_getElem_range_past_end l (k + 1) a hle]

/-- The code's slice call at `[p*5, p*5+5)` computes the spec's window for
every non-negative page index `p`. -/
theorem jsSlice_eq_specWindow {α : Type} (l : List α) (p : Int) (hp : 0 ≤ p) :
    jsSlice l (p * 5) (p * 5 + 5) = specWindow l p.toNat := by
  unfold jsSlice specWindow
  have h1 : (p * 5).toNat = 5 * p.toNat := by omega
  have h2 : (p * 5 + 5).toNat - (p * 5).toNat = 5 := by omega
  rw [h2, h1, drop_take_eq_offset_window]

/-! ## Claim theorems -/

/-- Claim C1: for every fetched result list and every page index `p ≥ 0`
(0 when the page parameter is absent, otherwise `page - 1`), the search
handler's returned window `request.searchResult` equals the elements of the
full result list at offsets `[5p, 5p+5)` clamped to `[0, n)`, and the
thumbnail list is sliced with the same offsets. -/
theorem c1_search_window (result : List SearchRow) (page : Option Int)
    (searchTerm category : Option String)
    (hp : 0 ≤ computePageNum page) :
    computePageNum page = (page.map (fun pg => pg - 1)).getD 0
    ∧ (searchSuccess searchTerm category (computePageNum page) result).searchResult
        = specWindow result (computePageNum page).toNat
    ∧ (searchSuccess searchTerm category (computePageNum page) result).thumbnails
        = specWindow (extractThumbnails result) (computePageNum page).toNat := by
  refine ⟨?_, ?_, ?_⟩
  · cases page <;> rfl
  · exact jsSlice_eq_specWindow result (computePageNum page) hp
  · exact jsSlice_eq_specWindow (extractThumbnails result) (computePageNum page) hp

/-- Witness for C1: the page parameter is absent, so the page index is 0
and the window of the seven sample rows is their first five elements. -/
theorem c1_search_window_witness :
    0 ≤ computePageNum none
    ∧ (computePageNum none = (Option.map (fun pg => pg - 1) none).getD 0
       ∧ (searchSuccess (some "") (some "") (computePageNum none) sampleRows).searchResult
           = specWindow sampleRows (computePageNum none).toNat
       ∧ (searchSuccess (some "") (some "") (computePageNum none) sampleRows).thumbnails
           = specWindow (extractThumbnails sampleRows) (computePageNum none).toNat) :=
  ⟨by decide, c1_search_window sampleRows none (some "") (some "") (by decide)⟩

/-- Claim C2: for every successful search with page index `p ≥ 0` over `n`
result rows, the computed upper bound is `min(5p+5, n)` and the lower bound
is `5p+1`; both are computed without error even when `n = 0` (the upper
bound is then 0). -/
theorem c2_search_bounds (result : List SearchRow) (p : Int)
    (searchTerm category : Option String) (hp : 0 ≤ p) :
    (searchSuccess searchTerm category p result).upperBound
        = min (p * 5 + 5) (result.length : Int)
    ∧ (searchSuccess searchTerm category p result).lowerBound = p * 5 + 1
    ∧ (searchSuccess searchTerm category p []).upperBound = 0
    ∧ (searchSuccess searchTerm category p []).lowerBound = p * 5 + 1 := by
  refine ⟨?_, rfl, ?_, rfl⟩
  · show (if p * 5 + 5 > (result.length : Int) then (result.length : Int)
          else p * 5 + 5) = min (p * 5 + 5) (result.length : Int)
    rw [Int.min_def]
    split <;> split <;> omega
  · show (if p * 5 + 5 > ((List.length ([] : List SearchRow)) : Int)
          then ((List.length ([] : List SearchRow)) : Int)
          else p * 5 + 5) = 0
    simp only [List.length_nil, Nat.cast_zero]
    split <;> omega

/-- Witness for C2, instantiating the spec's example: 12 total matches and
page 3 (page index 2) give the window `items[10:12]`, upper bound 12 and
lower bound 11. -/
theorem c2_search_bounds_witness :
    0 ≤ (2 : Int)
    ∧ ((searchSuccess (some "") (some "") 2 rows12).upperBound
          = min (2 * 5 + 5) (rows12.length : Int)
       ∧ (searchSuccess (some "") (some "") 2 rows12).lowerBound = 2 * 5 + 1
       ∧ (searchSuccess (some "") (some "") 2 []).upperBound = 0
       ∧ (searchSuccess (some "") (some "") 2 []).lowerBound = 2 * 5 + 1)
    ∧ (searchSuccess (some "") (some "") 2 rows12).upperBound = 12
    ∧ (searchSuccess (some "") (some "") 2 rows12).lowerBound = 11
    ∧ (searchSuccess (some "") (some "") 2 rows12).searchResult
        = [sampleRow 10, sampleRow 11] :=
  ⟨by decide, c2_search_bounds rows12 2 (some "") (some "") (by decide),
   by decide, by decide, by decide⟩

/-- Claim C3: whatever the database outcome, `getSearchCategories` (a total
function in this embedding: its callback body performs no throwing
operation) invokes its continuation exactly once, and on a database error
it leaves both category lists empty and proceeds. -/
theorem c3_categories_never_throw :
    (∀ outcome : Except String (List MajorRow),
        (getSearchCategories outcome).callbackCalls = 1)
    ∧ (∀ e : String,
        (getSearchCategories (.error e)).majors_short_name = []
        ∧ (getSearchCategories (.error e)).majors_long_name = []) := by
  refine ⟨fun outcome => ?_, fun e => ⟨rfl, rfl⟩⟩
  cases outcome <;> rfl

/-- Claim C4: when the search term and the category are both the empty
string, the handler builds the default unfiltered query, whose only WHERE
condition is the admin-approval flag. -/
theorem c4_empty_term_and_category_unfiltered :
    buildSearchQuery (some "") (some "") = qDefault
    ∧ qDefault = searchSelectJoins ++ "WHERE tutor_post.admin_approved = 1" :=
  ⟨rfl, rfl⟩

set_option maxRecDepth 8192 in
/-- Claim C5: the dashboard query is the same for every session user id
(it always asks for the messages of the hard-coded placeholder user 2),
and against the same database the rendered message list is the same for
every pair of session user ids. -/
theorem c5_dashboard_ignores_session_user :
    (∀ u : Int, dashboardQuery u = dashboardQuery 2)
    ∧ (∀ u : Int, ∃ pre : String,
        dashboardQuery u
          = pre ++ "WHERE messages.to_user = 2\nORDER BY messages.date_sent DESC")
    ∧ (∀ (u1 u2 : Int) (db : String → Except String (List MessageRow)),
        loadDashboard u1 db = loadDashboard u2 db) := by
  refine ⟨fun u => rfl, fun u => ?_, fun u1 u2 db => rfl⟩
  refine ⟨"SELECT messages.message_id,\n" ++
          "       messages.date_sent,\n" ++
          "       messages.message_text,\n" ++
          "       messages.to_user,\n" ++
          "       messages.from_user,\n" ++
          "       messages.is_unread,\n" ++
          "       users.first_name AS from_user_first_name,\n" ++
          "       users.last_name AS from_user_last_name\n" ++
          "FROM messages\n" ++
          "JOIN users ON users.user_id = messages.from_user\n", ?_⟩
  show dashboardQuery 2 = _
  decide

/-- The dashboard loop builds one entry per visited index, each with the
status taken from the fixed row 1, whenever every visited index is in range
and row 1 exists. -/
theorem buildMessagesFrom_status (result : List MessageRow) (row1 : MessageRow)
    (h : result[1]? = some row1) :
    ∀ idxs : List Nat, (∀ i ∈ idxs, i < result.length) →
      ∃ entries, buildMessagesFrom result idxs = some entries
        ∧ entries.length = idxs.length
        ∧ ∀ e ∈ entries, e.status = if row1.is_unread then "Unread" else "Read" := by
  intro idxs
  induction idxs with
  | nil => exact fun _ => ⟨[], rfl, rfl, by simp⟩
  | cons i rest ih =>
    intro hmem
    have hi : i < result.length := hmem i (List.mem_cons_self i rest)
    obtain ⟨entries, he, hlen, hstat⟩ :=
      ih (fun j hj => hmem j (List.mem_cons_of_mem i hj))
    have hrow : result[i]? = some result[i] := List.getElem?_eq_getElem hi
    have hentry : buildMessageEntry result i = some (mkMessageEntry row1 result[i]) := by
      simp [buildMessageEntry, mkMessageEntry, h, hrow]
    refine ⟨mkMessageEntry row1 result[i] :: entries, ?_, by simp [hlen], ?_⟩
    · simp [buildMessagesFrom, hentry, he]
    · intro e hmem
      rcases List.mem_cons.mp hmem with hhd | htl
      · subst hhd; rfl
      · exact hstat e htl

/-- Claim C6 (amended): whenever the dashboard result set has a row at
index 1, the loop renders one entry per row and computes *every* entry's
read/unread status from that fixed row 1 (not from the current row). -/
theorem c6_status_from_fixed_row_one (result : List MessageRow) (row1 : MessageRow)
    (h : result[1]? = some row1) :
    ∃ entries, buildMessages result = some entries
      ∧ entries.length = result.length
      ∧ ∀ e ∈ entries, e.status = if row1.is_unread then "Unread" else "Read" := by
  obtain ⟨entries, he, hlen, hstat⟩ :=
    buildMessagesFrom_status result row1 h (List.range result.length)
      (fun i hi => List.mem_range.mp hi)
  exact ⟨entries, he, by rw [hlen, List.length_range], hstat⟩

/-- Witness for C6 (amended): a two-row result set whose row 1 is read
(odd sample index), so every rendered entry's status is "Read" — including
the entry of unread row 0. -/
theorem c6_status_from_fixed_row_one_witness :
    [sampleMessageRow 0, sampleMessageRow 1][1]? = some (sampleMessageRow 1)
    ∧ (∃ entries, buildMessages [sampleMessageRow 0, sampleMessageRow 1] = some entries
        ∧ entries.length = [sampleMessageRow 0, sampleMessageRow 1].length
        ∧ ∀ e ∈ entries,
            e.status = if (sampleMessageRow 1).is_unread then "Unread" else "Read") :=
  ⟨rfl, c6_status_from_fixed_row_one [sampleMessageRow 0, sampleMessageRow 1]
          (sampleMessageRow 1) rfl⟩

/-- Counterexample to Claim C6 as stated: a *non-empty* result set (one
row) for which the loop renders no entries at all — the fixed `result[1]`
access has no row to read (in the JavaScript, the property access on
`undefined` throws), so it is not the case that every non-empty result set
yields entries whose status is computed from row 1. -/
theorem c6_single_row_renders_nothing :
    ([sampleMessageRow 0] : List MessageRow).length = 1
    ∧ buildMessages [sampleMessageRow 0] = none := ⟨rfl, rfl⟩

/-- Claim C7: a database error in the major-id lookup, and a database error
in the course-id lookup (reached when the major lookup returned rows), are
both re-thrown by `createTutorPost` instead of being swallowed. -/
theorem c7_create_post_rethrows_db_errors :
    (∀ (e : String) (courseOutcome : Except String (List CourseIdRow)),
        (createTutorPost (.ok ()) (.error e) courseOutcome).thrown = some e)
    ∧ (∀ (e : String) (row : MajorIdRow) (rest : List MajorIdRow),
        (createTutorPost (.ok ()) (.ok (row :: rest)) (.error e)).thrown = some e) :=
  ⟨fun _ _ => rfl, fun _ _ _ => by simp [createTutorPost, Nat.zero_le]⟩

/-- Claim C8 (amended): `createTutorPost` never issues an INSERT, always
invokes its callback exactly once, and never sets `postCreated` to true; it
sets `postCreated` to false whenever the image resize succeeded (when the
resize fails, the field is left unassigned). -/
theorem c8_no_insert_ever (sharpOutcome : Except String Unit)
    (majorOutcome : Except String (List MajorIdRow))
    (courseOutcome : Except String (List CourseIdRow)) :
    (createTutorPost sharpOutcome majorOutcome courseOutcome).insertPerformed = false
    ∧ (createTutorPost sharpOutcome majorOutcome courseOutcome).callbackCalls = 1
    ∧ decide ((createTutorPost sharpOutcome majorOutcome courseOutcome).postCreated
        = some true) = false
    ∧ ∀ (m : Except String (List MajorIdRow)) (c : Except String (List CourseIdRow)),
        (createTutorPost (.ok ()) m c).postCreated = some false := by
  have key : ∀ (s : Except String Unit) (m : Except String (List MajorIdRow))
      (c : Except String (List CourseIdRow)),
      (createTutorPost s m c).insertPerformed = false
      ∧ (createTutorPost s m c).callbackCalls = 1
      ∧ decide ((createTutorPost s m c).postCreated = some true) = false
      ∧ (s = Except.ok () → (createTutorPost s m c).postCreated = some false) := by
    intro s m c
    cases s with
    | error e => exact ⟨rfl, rfl, rfl, by intro hcontra; cases hcontra⟩
    | ok u =>
      refine ⟨?_, ?_, ?_, fun _ => ?_⟩ <;>
      · cases m with
        | error e => rfl
        | ok result =>
          cases result with
          | nil => rfl
          | cons row rest =>
            cases c with
            | error e => simp [createTutorPost, Nat.zero_le]
            | ok cresult =>
              by_cases hc : cresult.length > 0 <;>
                simp [createTutorPost, Nat.zero_le, hc]
  obtain ⟨h1, h2, h3, _⟩ := key sharpOutcome majorOutcome courseOutcome
  exact ⟨h1, h2, h3, fun m c => (key (.ok ()) m c).2.2.2 rfl⟩

/-- Counterexample to Claim C8 as stated: when the image resize fails, the
`.catch` handler only logs and `request.postCreated` is never assigned — it
is left undefined, not set to false. -/
theorem c8_postCreated_unset_on_resize_failure :
    (createTutorPost (.error "resize failed") (.ok []) (.ok [])).postCreated = none
    ∧ decide ((createTutorPost (.error "resize failed") (.ok []) (.ok [])).postCreated
        = some false) = false := ⟨rfl, rfl⟩

set_option maxRecDepth 8192 in
/-- Claim C9: when both query parameters are absent (`undefined`), neither
strict comparison with the empty string holds, so the first branch is
selected and template interpolation splices the text `undefined` into the
LIKE patterns: the handler filters names by the literal substring
`undefined` and does not build the unfiltered query. -/
theorem c9_absent_params_filter_by_undefined :
    buildSearchQuery none none = qTermAndCategory none
    ∧ buildSearchQuery none none
        = searchSelectJoins ++ "WHERE tutor_post.admin_approved = 1 AND" ++
          "(users.first_name LIKE '%undefined%' OR users.last_name LIKE '%undefined%')"
    ∧ decide (buildSearchQuery none none = qDefault) = false :=
  ⟨rfl, by decide, by decide⟩

/-- Claim C10: for every non-empty search term, the built query is the same
whatever the category (absent, empty or non-empty): the term-and-category
branch's query text is character-for-character the term-only branch's. -/
theorem c10_category_never_filters_with_term (t : String) (c : Option String)
    (h : (t == "") = false) :
    buildSearchQuery (some t) c = buildSearchQuery (some t) (some "")
    ∧ qTermAndCategory (some t) = qTermOnly (some t) := by
  refine ⟨?_, rfl⟩
  have hs : jsIsEmptyStr (some t) = false := h
  unfold buildSearchQuery
  rw [hs]
  cases hc : jsIsEmptyStr c <;>
    simp [hc, show jsIsEmptyStr (some "") = true from rfl,
          qTermAndCategory, qTermOnly]

/-- Witness for C10: the term "al" with category "CS" builds the same query
as the term "al" with an empty category. -/
theorem c10_category_never_filters_with_term_witness :
    (("al" == "") = false)
    ∧ (buildSearchQuery (some "al") (some "CS") = buildSearchQuery (some "al") (some "")
       ∧ qTermAndCategory (some "al") = qTermOnly (some "al")) :=
  ⟨by decide, c10_category_never_filters_with_term "al" (some "CS") (by decide)⟩

end TermProject
